import Mathlib

/-!
Shallow embedding of `aiida_pseudo/groups/family/pseudo.py`
(class `PseudoPotentialFamily`), the family construction and
element-indexed lookup subsystem of the repository.

Modelling conventions:
* Python exceptions become an explicit `PyError` sum; exception classes are
  distinguished by `ErrKind`.
* Python runtime classes of pseudo-potential data nodes become the enum
  `PyType`; `type(x) is T` is equality, `isinstance(x, T)` is `issubclassPy`.
* The mutation of `self._pseudos` (the lazily built element index) is made
  explicit by state passing: every operation returns its result together with
  the post-state of the family.
* A Python `dict` (insertion ordered, later assignment overwrites in place)
  is an association list with `dictInsert` / `dictUpdate` mirroring
  `d[k] = v` and `d.update(other)`.
* The filesystem and the external pseudo-data constructor
  `cls._pseudo_type(handle, filename=filename)` are collaborators outside the
  file: a directory is a list of `FileEntry`, each carrying the outcome the
  constructor would produce for that file's bytes (a `ParsingError` message,
  or the optional `element` attribute of the constructed node).
* The `QueryBuilder` query of `get_pseudo` (scoped to this family's pk and
  `attributes.element == element`) is modelled by filtering the family's own
  stored node list, which is what that query returns for the backing store.
* Filenames are modelled as ASCII strings; the regex
  `^([A-Za-z]{1,2})\.\w+` is embedded character by character.
-/

/-- Python exception classes raised in `pseudo.py`, by class only. -/
inductive ErrKind where
  | valueError
  | typeError
  | parsingError
  | modificationNotAllowed
  | runtimeError
  deriving DecidableEq, Repr

/-- A raised Python exception: its class together with its message. -/
inductive PyError where
  | valueError (msg : String)
  | typeError (msg : String)
  | parsingError (msg : String)
  | modificationNotAllowed (msg : String)
  | runtimeError (msg : String)
  deriving DecidableEq, Repr

/-- The class of a raised exception. -/
def PyError.kind : PyError → ErrKind
  | .valueError _ => .valueError
  | .typeError _ => .typeError
  | .parsingError _ => .parsingError
  | .modificationNotAllowed _ => .modificationNotAllowed
  | .runtimeError _ => .runtimeError

/-- The exception class of a fallible result, `none` when it succeeded. -/
def resultErrKind {α : Type} : Except PyError α → Option ErrKind
  | .error e => some e.kind
  | .ok _ => none

/-- Runtime classes of pseudo-potential data nodes.
`pseudoPotentialData` embeds the base class `PseudoPotentialData`;
`upfData` embeds a strict subclass of it (a concrete pseudo flavour). -/
inductive PyType where
  | pseudoPotentialData
  | upfData
  deriving DecidableEq, Repr

/-- Python `issubclass` on the modelled class universe: `upfData` is the
only strict subclass, its base being `pseudoPotentialData`. -/
def issubclassPy (t target : PyType) : Bool :=
  t == target || (t == .upfData && target == .pseudoPotentialData)

/-- Python `isinstance(node, T)` for a node of runtime class `t`. -/
def isinstancePy (t target : PyType) : Bool :=
  issubclassPy t target

/-- A pseudo-potential data node: the `element` attribute (unset = Python
`None`), the `filename`, its runtime class, its persistence state, and an
identity distinguishing distinct node objects. -/
structure PNode where
  id : Nat
  element : Option String
  filename : String
  ptype : PyType
  is_stored : Bool
  deriving DecidableEq, Repr

/-- `node.store()`. -/
def PNode.store (p : PNode) : PNode :=
  { p with is_stored := true }

/-- Python string formatting of an optional element attribute. -/
def optStr : Option String → String
  | some s => s
  | none => "None"

/-- `d[k] = v` on an insertion-ordered Python dict: overwrite in place when
the key exists, append otherwise. -/
def dictInsert {V : Type} : List (Option String × V) → Option String → V →
    List (Option String × V)
  | [], k, v => [(k, v)]
  | (k', v') :: t, k, v =>
      if k' == k then (k', v) :: t else (k', v') :: dictInsert t k v

/-- `d[k]` lookup on a Python dict (`None` for `KeyError`). -/
def dictGet {V : Type} (d : List (Option String × V)) (k : Option String) :
    Option V :=
  (d.find? (fun p => p.1 == k)).map Prod.snd

/-- `d.update(other)`: assign every pair of `other` into `d`, in order. -/
def dictUpdate {V : Type} (d other : List (Option String × V)) :
    List (Option String × V) :=
  other.foldl (fun acc kv => dictInsert acc kv.1 kv.2) d

/-- A `PseudoPotentialFamily` instance: `label`, `description`, persistence
state, the accepted pseudo class (`_pseudo_type`, bound per subclass), the
stored nodes contained in the group (the backing store's view), and the
lazily built element index `_pseudos` (`none` until first access). -/
structure Family where
  label : String
  description : String
  is_stored : Bool
  pseudo_type : PyType
  nodes : List PNode
  _pseudos : Option (List (Option String × PNode))
  deriving DecidableEq, Repr

/-- The dict comprehension `{pseudo.element: pseudo for pseudo in self.nodes}`
building the element index from the full contained-node set. -/
def buildPseudosDict (nodes : List PNode) : List (Option String × PNode) :=
  nodes.foldl (fun d p => dictInsert d p.element p) []

/-- Property `pseudos`: return the element index, building `_pseudos` from
`self.nodes` on first access. Returns the dict and the post-state. -/
def Family.pseudos (fam : Family) :
    List (Option String × PNode) × Family :=
  match fam._pseudos with
  | some d => (d, fam)
  | none =>
      let d := buildPseudosDict fam.nodes
      (d, { fam with _pseudos := some d })

/-- Property `elements`: `list(self.pseudos.keys())`, with the state effect
of the `pseudos` access. -/
def Family.elements (fam : Family) : List (Option String) × Family :=
  let pr := fam.pseudos
  (pr.1.map Prod.fst, pr.2)

/-- The duplicate-check loop of `add_nodes`: walk the batch, raising
`ValueError` when a node's element is already among `self.elements`
(constant during the loop), and stage the node into the local dict
`pseudos` otherwise. -/
def addNodesLoop (elems : List (Option String))
    (staging : List (Option String × PNode)) :
    List PNode → Except PyError (List (Option String × PNode))
  | [] => .ok staging
  | p :: rest =>
      if elems.contains p.element then
        .error (.valueError
          ("element " ++ optStr p.element ++ " already present in this family"))
      else
        addNodesLoop elems (dictInsert staging p.element p) rest

/-- `PseudoPotentialFamily.add_nodes(nodes)` for a list argument: the
unstored guard, the exact-type guard over the whole batch, the duplicate
check against `self.elements`, then `self.pseudos.update(pseudos)` and the
superclass `add_nodes` (persisting the nodes into the group). -/
def Family.add_nodes (fam : Family) (nodes : List PNode) :
    Except PyError Unit × Family :=
  if !fam.is_stored then
    (.error (.modificationNotAllowed "cannot add nodes to an unstored group"),
      fam)
  else if nodes.any (fun n => !(n.ptype == fam.pseudo_type)) then
    (.error (.typeError "only nodes of type _pseudo_type can be added"), fam)
  else
    let er := fam.elements
    match addNodesLoop er.1 [] nodes with
    | .error e => (.error e, er.2)
    | .ok staging =>
        let pr := er.2.pseudos
        let fam' := { pr.2 with _pseudos := some (dictUpdate pr.1 staging) }
        (.ok (), { fam' with nodes := fam'.nodes ++ nodes })

/-- `PseudoPotentialFamily.get_pseudo(element)`: fast path through the
element index, else the `QueryBuilder` query scoped to this family and this
element (modelled as the element filter over this family's stored nodes),
with `builder.one()` semantics: zero matches raise `NotExistent` (re-raised
as `ValueError`), several raise `MultipleObjectsError` (re-raised as
`RuntimeError`), one is cached into the index and returned. The third
component records whether the query layer was invoked. -/
def Family.get_pseudo (fam : Family) (element : String) :
    Except PyError PNode × Family × Bool :=
  let pr := fam.pseudos
  match dictGet pr.1 (some element) with
  | some pseudo => (.ok pseudo, pr.2, false)
  | none =>
      match pr.2.nodes.filter (fun n => n.element == some element) with
      | [] =>
          (.error (.valueError
            ("family " ++ fam.label ++ " does not contain pseudo for element "
              ++ element)), pr.2, true)
      | [pseudo] =>
          (.ok pseudo,
            { pr.2 with _pseudos := some (dictInsert pr.1 (some element) pseudo) },
            true)
      | _ =>
          (.error (.runtimeError
            ("family " ++ fam.label ++ " contains multiple pseudos for "
              ++ element)), pr.2, true)

/-- `[A-Za-z]` of the filename regex. -/
def isAlphaChar (c : Char) : Bool :=
  ('A' ≤ c && c ≤ 'Z') || ('a' ≤ c && c ≤ 'z')

/-- `\w` of the filename regex (ASCII model). -/
def isWordChar (c : Char) : Bool :=
  isAlphaChar c || ('0' ≤ c && c ≤ '9') || c == '_'

/-- Whether `\.\w+` matches at the front of the remaining characters. -/
def matchDotExt : List Char → Bool
  | '.' :: c :: _ => isWordChar c
  | _ => false

/-- `re.search(r'^([A-Za-z]{1,2})\.\w+', filename)` on the characters of the
filename, returning the captured group: the greedy two-letter alternative is
tried first, the one-letter alternative on backtracking. -/
def elementFromChars : List Char → Option (List Char)
  | c1 :: c2 :: rest =>
      if isAlphaChar c1 && isAlphaChar c2 && matchDotExt rest then
        some [c1, c2]
      else if isAlphaChar c1 && matchDotExt (c2 :: rest) then
        some [c1]
      else
        none
  | _ => none

/-- The filename heuristic of `parse_pseudos_from_directory`. -/
def elementFromFilename (filename : String) : Option String :=
  (elementFromChars filename.toList).map (fun cs => String.mk cs)

deriving instance DecidableEq for Except

/-- A directory entry: its name, whether `os.path.isfile` holds for it, and
the outcome of the external constructor `cls._pseudo_type(handle, filename)`
on its content: a `ParsingError` message, or the `element` attribute of the
constructed node (possibly unset). -/
structure FileEntry where
  filename : String
  is_file : Bool
  parseResult : Except String (Option String)
  deriving DecidableEq, Repr

/-- A `dirpath` argument: either not a directory at all, or a directory
with its `os.listdir` entries in listing order. -/
inductive Dirpath where
  | notDir (path : String)
  | dir (path : String) (entries : List FileEntry)
  deriving DecidableEq, Repr

/-- The per-file body of the parsing loop: the constructor call (re-raising
`ParsingError` with the path), then the filename fallback when the
constructed node's `element` is unset. `i` is the node identity. -/
def parseOne (ptype : PyType) (i : Nat) (fe : FileEntry) :
    Except PyError PNode :=
  match fe.parseResult with
  | .error msg =>
      .error (.parsingError ("failed to parse " ++ fe.filename ++ ": " ++ msg))
  | .ok (some e) =>
      .ok { id := i, element := some e, filename := fe.filename,
            ptype := ptype, is_stored := false }
  | .ok none =>
      match elementFromFilename fe.filename with
      | some e =>
          .ok { id := i, element := some e, filename := fe.filename,
                ptype := ptype, is_stored := false }
      | none =>
          .error (.parsingError
            ("constructor did not define the element and could not parse a "
              ++ "valid element symbol from the filename " ++ fe.filename
              ++ " either. It should have the format ELEMENT.EXTENSION"))

/-- The `for filename in os.listdir(dirpath)` loop: the is-file check, then
`parseOne`, accumulating the parsed nodes in listing order. -/
def parseAll (ptype : PyType) (dirpath : String) :
    List FileEntry → Nat → Except PyError (List PNode)
  | [], _ => .ok []
  | fe :: rest, i =>
      if !fe.is_file then
        .error (.valueError
          ("dirpath " ++ dirpath ++ " contains at least one entry that is not a file"))
      else
        match parseOne ptype i fe with
        | .error e => .error e
        | .ok p =>
            match parseAll ptype dirpath rest (i + 1) with
            | .error e => .error e
            | .ok ps => .ok (p :: ps)

/-- The post-pass of `parse_pseudos_from_directory`: the emptiness check,
then the duplicate-element check `len(pseudos) != len(elements)` where
`elements = set(pseudo.element for pseudo in pseudos)`. -/
def postCheck (dirpath : String) (pseudos : List PNode) :
    Except PyError (List PNode) :=
  if pseudos.isEmpty then
    .error (.valueError ("no pseudo potentials were parsed from " ++ dirpath))
  else
    if pseudos.length ≠ ((pseudos.map PNode.element).dedup).length then
      .error (.valueError
        ("directory " ++ dirpath ++ " contains pseudo potentials with duplicate elements"))
    else
      .ok pseudos

/-- `PseudoPotentialFamily.parse_pseudos_from_directory(dirpath)`. -/
def parse_pseudos_from_directory (ptype : PyType) (d : Dirpath) :
    Except PyError (List PNode) :=
  match d with
  | .notDir path => .error (.valueError (path ++ " is not a directory"))
  | .dir path entries =>
      match parseAll ptype path entries 0 with
      | .error e => .error e
      | .ok pseudos => postCheck path pseudos

/-- `PseudoPotentialFamily.create_from_folder(dirpath, label, description)`:
the existence check by label (`cls.objects.get(label=label)` against the
labels of the already existing families), the in-memory construction of the
unstored family, the directory parse, then `family.store()` and
`family.add_nodes([pseudo.store() for pseudo in pseudos])`. -/
def create_from_folder (ptype : PyType) (existingLabels : List String)
    (d : Dirpath) (label : String) (description : String) :
    Except PyError Family :=
  if existingLabels.contains label then
    .error (.valueError ("the PseudoPotentialFamily " ++ label ++ " already exists"))
  else
    let family : Family :=
      { label := label, description := description, is_stored := false,
        pseudo_type := ptype, nodes := [], _pseudos := none }
    match parse_pseudos_from_directory ptype d with
    | .error e => .error e
    | .ok pseudos =>
        let familyStored := { family with is_stored := true }
        match familyStored.add_nodes (pseudos.map PNode.store) with
        | (.ok _, fam') => .ok fam'
        | (.error e, _) => .error e

/-! ## Concrete fixtures used by witnesses and counterexamples -/

/-- A stored pseudo node for iron. -/
def nodeFe : PNode :=
  { id := 1, element := some "Fe", filename := "Fe.upf",
    ptype := .pseudoPotentialData, is_stored := true }

/-- A second, distinct stored pseudo node whose element is also iron. -/
def nodeFe2 : PNode :=
  { id := 2, element := some "Fe", filename := "Fe2.upf",
    ptype := .pseudoPotentialData, is_stored := true }

/-- A stored pseudo node whose runtime class is the strict subclass. -/
def nodeUpf : PNode :=
  { id := 4, element := some "Si", filename := "Si.upf",
    ptype := .upfData, is_stored := true }

/-- A stored family with no nodes and an unbuilt element index. -/
def famEmptyStored : Family :=
  { label := "SSSP", description := "", is_stored := true,
    pseudo_type := .pseudoPotentialData, nodes := [], _pseudos := none }

/-- A stored family already containing the iron node. -/
def famFeStored : Family :=
  { famEmptyStored with nodes := [nodeFe] }

/-- A freshly constructed, never stored family. -/
def famUnstored : Family :=
  { famEmptyStored with is_stored := false }

/-- A stored family whose element index was built while the family was
empty, while the backing store meanwhile holds the iron node: the state in
which `get_pseudo` must take its query fallback. -/
def famStale : Family :=
  { famEmptyStored with nodes := [nodeFe], _pseudos := some [] }

/-! ## Helper lemmas -/

/-- Looking up the key just assigned by `dictInsert` yields the assigned
value. -/
theorem dictGet_dictInsert_self {V : Type} (d : List (Option String × V))
    (k : Option String) (v : V) :
    dictGet (dictInsert d k v) k = some v := by
  induction d with
  | nil => simp [dictInsert, dictGet, List.find?]
  | cons kv t ih =>
      obtain ⟨k', v'⟩ := kv
      by_cases hk : (k' == k) = true
      · simp [dictInsert, hk, dictGet, List.find?]
      · simp only [dictInsert, hk, if_false, Bool.false_eq_true]
        simp only [dictGet, List.find?, hk] at ih ⊢
        exact ih

/-- The state effect of the `pseudos` property leaves the contained nodes
unchanged. -/
theorem pseudos_snd_nodes (fam : Family) : (fam.pseudos).2.nodes = fam.nodes := by
  unfold Family.pseudos
  cases fam._pseudos <;> simp

/-- Accessing the `pseudos` property twice is the same as accessing it
once: the second access finds the cache built. -/
theorem pseudos_idem (fam : Family) :
    ((fam.pseudos).2.pseudos) = ((fam.pseudos).1, (fam.pseudos).2) := by
  unfold Family.pseudos
  cases h : fam._pseudos <;> simp [h]

/-- An unstored family refuses `add_nodes` and is returned unchanged. -/
theorem add_nodes_unstored_eq (fam : Family) (nodes : List PNode)
    (h : fam.is_stored = false) :
    fam.add_nodes nodes =
      (.error (.modificationNotAllowed "cannot add nodes to an unstored group"),
        fam) := by
  simp [Family.add_nodes, h]

/-- A batch containing any node whose exact runtime class differs from the
family's accepted class is refused with `TypeError`. -/
theorem add_nodes_mismatch_eq (fam : Family) (nodes : List PNode)
    (hs : fam.is_stored = true)
    (ht : nodes.any (fun n => !(n.ptype == fam.pseudo_type)) = true) :
    fam.add_nodes nodes =
      (.error (.typeError "only nodes of type _pseudo_type can be added"),
        fam) := by
  simp [Family.add_nodes, hs, ht]

/-! ## Claim theorems -/

/-- Claim C6: on a family that has not been stored, every call to
`add_nodes` fails with `ModificationNotAllowed` (the `NotAllowed` error of
the spec), whatever the batch of nodes passed. -/
theorem add_nodes_on_unstored_family_not_allowed (fam : Family)
    (nodes : List PNode) (h : fam.is_stored = false) :
    (fam.add_nodes nodes).1 =
      .error (.modificationNotAllowed "cannot add nodes to an unstored group") := by
  rw [add_nodes_unstored_eq fam nodes h]

/-- Witness for C6 at a concrete unstored family and a nonempty batch. -/
theorem add_nodes_on_unstored_family_not_allowed_witness :
    (famUnstored.add_nodes [nodeFe]).1 =
      .error (.modificationNotAllowed "cannot add nodes to an unstored group") :=
  add_nodes_on_unstored_family_not_allowed famUnstored [nodeFe] rfl

/-- Claim C5: on a stored family, a record whose exact runtime class is not
the family's accepted class is rejected with a `TypeError`-class error;
the hypothesis is only class inequality, so a strict subclass instance
(which passes `isinstance`) is rejected too. -/
theorem add_nodes_wrong_exact_type_type_error (fam : Family) (n : PNode)
    (hs : fam.is_stored = true) (ht : n.ptype ≠ fam.pseudo_type) :
    resultErrKind (fam.add_nodes [n]).1 = some .typeError := by
  have ha : [n].any (fun m => !(m.ptype == fam.pseudo_type)) = true := by
    simp [ht]
  rw [add_nodes_mismatch_eq fam [n] hs ha]
  rfl

/-- Witness for C5: the `upfData` node is an instance of the family's
accepted class `pseudoPotentialData` in the `isinstance` sense, yet
`add_nodes` rejects it with `TypeError`. -/
theorem add_nodes_wrong_exact_type_type_error_witness :
    isinstancePy nodeUpf.ptype famEmptyStored.pseudo_type = true ∧
    resultErrKind (famEmptyStored.add_nodes [nodeUpf]).1 = some .typeError :=
  ⟨by decide,
    add_nodes_wrong_exact_type_type_error famEmptyStored nodeUpf rfl (by decide)⟩

/-- Claim C2: on a stored family, adding a single correctly typed record
whose element is already a key of the element index fails with
`ValueError` (the spec's `InvalidInput`) and leaves the family unchanged:
the contained node list and the element index are those of the state
before the call. -/
theorem add_nodes_existing_element_invalid_input (fam : Family) (n : PNode)
    (hs : fam.is_stored = true) (ht : n.ptype = fam.pseudo_type)
    (he : ((fam.pseudos).1.map Prod.fst).contains n.element = true) :
    resultErrKind (fam.add_nodes [n]).1 = some .valueError ∧
    (fam.add_nodes [n]).2.nodes = fam.nodes ∧
    ((fam.add_nodes [n]).2.pseudos).1 = (fam.pseudos).1 := by
  have hadd : fam.add_nodes [n] =
      (.error (.valueError
        ("element " ++ optStr n.element ++ " already present in this family")),
        (fam.pseudos).2) := by
    unfold Family.add_nodes
    rw [hs]
    simp only [Bool.not_true, Bool.false_eq_true, if_false, List.any_cons,
      List.any_nil, Bool.or_false, ht, beq_self_eq_true, Bool.not_true]
    simp only [Family.elements, addNodesLoop]
    rw [he]
    simp
  rw [hadd]
  refine ⟨rfl, pseudos_snd_nodes fam, ?_⟩
  rw [pseudos_idem fam]

/-- Witness for C2 at a concrete family containing iron, adding a second
iron record. -/
theorem add_nodes_existing_element_invalid_input_witness :
    resultErrKind (famFeStored.add_nodes [nodeFe2]).1 = some .valueError ∧
    (famFeStored.add_nodes [nodeFe2]).2.nodes = famFeStored.nodes ∧
    ((famFeStored.add_nodes [nodeFe2]).2.pseudos).1 = (famFeStored.pseudos).1 :=
  add_nodes_existing_element_invalid_input famFeStored nodeFe2 rfl rfl (by decide)

/-- Claim C10: the guards of `add_nodes` are ordered. First conjunct: an
unstored family fails with `ModificationNotAllowed` whatever the batch.
Second conjunct: a stored family given a batch containing any wrong-typed
record fails with `TypeError` whatever the elements of the batch, so the
type guard fires before the duplicate-element check. -/
theorem add_nodes_guard_order :
    (∀ (fam : Family) (nodes : List PNode), fam.is_stored = false →
      resultErrKind (fam.add_nodes nodes).1 = some .modificationNotAllowed) ∧
    (∀ (fam : Family) (nodes : List PNode), fam.is_stored = true →
      nodes.any (fun n => !(n.ptype == fam.pseudo_type)) = true →
      resultErrKind (fam.add_nodes nodes).1 = some .typeError) := by
  constructor
  · intro fam nodes h
    rw [add_nodes_unstored_eq fam nodes h]
    rfl
  · intro fam nodes hs ht
    rw [add_nodes_mismatch_eq fam nodes hs ht]
    rfl

/-- Witness for C10: the same batch, holding both a wrong-typed record and
a record duplicating the family's iron element, yields
`ModificationNotAllowed` on the unstored family and `TypeError` (not the
duplicate-element `ValueError`) on the stored family containing iron. -/
theorem add_nodes_guard_order_witness :
    resultErrKind (famUnstored.add_nodes [nodeUpf, nodeFe2]).1 =
      some .modificationNotAllowed ∧
    resultErrKind (famFeStored.add_nodes [nodeUpf, nodeFe2]).1 =
      some .typeError :=
  ⟨add_nodes_guard_order.1 famUnstored [nodeUpf, nodeFe2] rfl,
    add_nodes_guard_order.2 famFeStored [nodeUpf, nodeFe2] rfl (by decide)⟩

/-- Claim C1 is refuted by the code: two distinct records sharing the
element iron, both of the accepted class, passed as one batch to a stored
empty family, are both committed: the call succeeds, both nodes are
persisted into the group (so the family then holds two records for iron),
and the element index keeps only the later one. The duplicate check of
`add_nodes` consults `self.elements` only, never the staging dict, so
duplicates occurring only inside the batch are not detected. -/
theorem add_nodes_batch_internal_duplicate_committed :
    (famEmptyStored.add_nodes [nodeFe, nodeFe2]).1 = .ok () ∧
    (famEmptyStored.add_nodes [nodeFe, nodeFe2]).2.nodes = [nodeFe, nodeFe2] ∧
    ((famEmptyStored.add_nodes [nodeFe, nodeFe2]).2.nodes.filter
      (fun n => n.element == some "Fe")).length = 2 ∧
    ((famEmptyStored.add_nodes [nodeFe, nodeFe2]).2.pseudos).1 =
      [(some "Fe", nodeFe2)] := by
  refine ⟨rfl, rfl, rfl, rfl⟩

/-- A stored family whose backing store holds two records for iron (the
corruption scenario), with an element index built while empty. -/
def famDup : Family :=
  { famEmptyStored with nodes := [nodeFe, nodeFe2], _pseudos := some [] }

/-- The family state produced by the slow path of `get_pseudo` on
`famStale` for iron: the index now caches the iron node. -/
def famStaleCached : Family :=
  { famEmptyStored with
    nodes := [nodeFe]
    _pseudos := some [(some "Fe", nodeFe)] }

/-- Claim C3: when the element misses the element index, `get_pseudo`
invokes the query layer (third component `true`), and by the number of
records the query returns: zero gives `ValueError` (the spec's
`InvalidInput`), exactly one is cached into the index and returned, and
several give `RuntimeError` (the spec's `Inconsistent`), an error class
distinct from `ValueError`. -/
theorem get_pseudo_slow_path_cases (fam : Family) (e : String)
    (h : dictGet (fam.pseudos).1 (some e) = none) :
    (fam.get_pseudo e).2.2 = true ∧
    ((fam.pseudos).2.nodes.filter (fun n => n.element == some e) = [] →
      (fam.get_pseudo e).1 = .error (.valueError
        ("family " ++ fam.label ++ " does not contain pseudo for element " ++ e))) ∧
    (∀ p : PNode,
      (fam.pseudos).2.nodes.filter (fun n => n.element == some e) = [p] →
      fam.get_pseudo e =
        (.ok p, { (fam.pseudos).2 with
            _pseudos := some (dictInsert (fam.pseudos).1 (some e) p) }, true)) ∧
    (2 ≤ ((fam.pseudos).2.nodes.filter (fun n => n.element == some e)).length →
      resultErrKind (fam.get_pseudo e).1 = some .runtimeError ∧
      ErrKind.runtimeError ≠ ErrKind.valueError) := by
  rcases hf : (fam.pseudos).2.nodes.filter (fun n => n.element == some e)
    with _ | ⟨p, _ | ⟨q, t⟩⟩
  · refine ⟨?_, ?_, ?_, ?_⟩
    · simp [Family.get_pseudo, h, hf]
    · intro _
      simp [Family.get_pseudo, h, hf]
    · intro p hp
      rw [hf] at hp
      simp at hp
    · intro hl
      rw [hf] at hl
      simp at hl
  · refine ⟨?_, ?_, ?_, ?_⟩
    · simp [Family.get_pseudo, h, hf]
    · intro hc
      rw [hf] at hc
      simp at hc
    · intro p' hp
      rw [hf] at hp
      obtain rfl : p' = p := by simpa using hp.symm
      simp [Family.get_pseudo, h, hf]
    · intro hl
      rw [hf] at hl
      simp at hl
  · refine ⟨?_, ?_, ?_, ?_⟩
    · simp [Family.get_pseudo, h, hf]
    · intro hc
      rw [hf] at hc
      simp at hc
    · intro p' hp
      rw [hf] at hp
      simp at hp
    · intro _
      refine ⟨?_, by decide⟩
      simp [Family.get_pseudo, h, hf, resultErrKind, PyError.kind]

/-- Witness for C3: the three query outcomes at concrete families: a miss
for oxygen on the iron family, a single stale-index hit for iron, and the
two-records-for-iron corruption state. -/
theorem get_pseudo_slow_path_cases_witness :
    (famFeStored.get_pseudo "O").1 = .error (.valueError
      ("family " ++ famFeStored.label ++
        " does not contain pseudo for element " ++ "O")) ∧
    famStale.get_pseudo "Fe" =
      (.ok nodeFe, { (famStale.pseudos).2 with
          _pseudos := some (dictInsert (famStale.pseudos).1 (some "Fe") nodeFe) },
        true) ∧
    resultErrKind (famDup.get_pseudo "Fe").1 = some .runtimeError :=
  ⟨(get_pseudo_slow_path_cases famFeStored "O" (by decide)).2.1 (by decide),
    (get_pseudo_slow_path_cases famStale "Fe" (by decide)).2.2.1 nodeFe (by decide),
    ((get_pseudo_slow_path_cases famDup "Fe" (by decide)).2.2.2 (by decide)).1⟩

/-- Claim C4: after a first `get_pseudo` call succeeded through the query
fallback (third component `true`), the second call on the resulting state
returns the same record with the same state and does not invoke the query
layer (third component `false`). -/
theorem get_pseudo_second_call_no_query (fam fam' : Family) (e : String)
    (p : PNode) (h : fam.get_pseudo e = (.ok p, fam', true)) :
    fam'.get_pseudo e = (.ok p, fam', false) := by
  simp only [Family.get_pseudo] at h
  rcases hd : dictGet (fam.pseudos).1 (some e) with _ | q
  · rw [hd] at h
    rcases hf : (fam.pseudos).2.nodes.filter (fun n => n.element == some e)
      with _ | ⟨q, _ | ⟨r, t⟩⟩
    · rw [hf] at h
      simp at h
    · rw [hf] at h
      simp only [Prod.mk.injEq, Except.ok.injEq] at h
      obtain ⟨rfl, rfl, -⟩ := h
      simp [Family.get_pseudo, Family.pseudos, dictGet_dictInsert_self]
    · rw [hf] at h
      simp at h
  · rw [hd] at h
    simp at h

/-- Witness for C4: the stale-index family, looked up twice for iron. -/
theorem get_pseudo_second_call_no_query_witness :
    famStaleCached.get_pseudo "Fe" = (.ok nodeFe, famStaleCached, false) :=
  get_pseudo_second_call_no_query famStale famStaleCached "Fe" nodeFe (by decide)

theorem matchDotExt_iff (cs : List Char) :
    matchDotExt cs = true ↔
      ∃ c rest, cs = '.' :: c :: rest ∧ isWordChar c = true := by
  constructor
  · intro h
    unfold matchDotExt at h
    split at h
    · next c l => exact ⟨c, l, rfl, h⟩
    · simp at h
  · rintro ⟨c, rest, rfl, hw⟩
    simpa [matchDotExt] using hw

theorem elementFromChars_some_iff (cs el : List Char) :
    elementFromChars cs = some el ↔
      ∃ c rest, cs = el ++ '.' :: c :: rest ∧ el.all isAlphaChar = true ∧
        (el.length = 1 ∨ el.length = 2) ∧ isWordChar c = true := by
  rcases cs with _ | ⟨c1, _ | ⟨c2, rest⟩⟩
  · constructor
    · intro h
      simp [elementFromChars] at h
    · rintro ⟨c, r, heq, -⟩
      exact absurd heq (by rcases el <;> simp)
  · constructor
    · intro h
      simp [elementFromChars] at h
    · rintro ⟨c, r, heq, -⟩
      exact absurd heq (by rcases el with _ | ⟨a, t⟩ <;> simp)
  · simp only [elementFromChars]
    constructor
    · intro h
      split at h
      · next hcond =>
        obtain ⟨⟨ha1, ha2⟩, hm⟩ : (isAlphaChar c1 = true ∧ isAlphaChar c2 = true)
            ∧ matchDotExt rest = true := by
          simpa using hcond
        obtain ⟨c, r, rfl, hw⟩ := (matchDotExt_iff rest).1 hm
        obtain rfl : el = [c1, c2] := by simpa using h.symm
        exact ⟨c, r, rfl, by simp [ha1, ha2], Or.inr rfl, hw⟩
      · next hcond1 =>
        split at h
        · next hcond =>
          obtain ⟨ha1, hm⟩ : isAlphaChar c1 = true ∧
              matchDotExt (c2 :: rest) = true := by
            simpa using hcond
          obtain ⟨c, r, heq, hw⟩ := (matchDotExt_iff (c2 :: rest)).1 hm
          injection heq with h1 h2
          subst h1
          subst h2
          obtain rfl : el = [c1] := by simpa using h.symm
          exact ⟨c, r, rfl, by simp [ha1], Or.inl rfl, hw⟩
        · simp at h
    · rintro ⟨c, r, heq, hall, hlen, hw⟩
      rcases hlen with h1 | h2
      · obtain ⟨a, rfl⟩ : ∃ a, el = [a] := by
          rcases el with _ | ⟨a, _ | ⟨b, t⟩⟩
          · simp at h1
          · exact ⟨a, rfl⟩
          · simp at h1
        simp only [List.cons_append, List.nil_append] at heq
        injection heq with e1 e2
        injection e2 with e2a e2b
        subst e1
        subst e2a
        subst e2b
        have ha : isAlphaChar c1 = true := by simpa using hall
        have hC1 : (isAlphaChar c1 && isAlphaChar '.' && matchDotExt (c :: r))
            = false := by
          simp [show isAlphaChar '.' = false from rfl]
        have hC2 : (isAlphaChar c1 && matchDotExt ('.' :: c :: r)) = true := by
          simp [ha, matchDotExt, hw]
        simp [hC1, hC2]
      · obtain ⟨a, b, rfl⟩ : ∃ a b, el = [a, b] := by
          rcases el with _ | ⟨a, _ | ⟨b, _ | ⟨x, t⟩⟩⟩
          · simp at h2
          · simp at h2
          · exact ⟨a, b, rfl⟩
          · simp at h2
        simp only [List.cons_append, List.nil_append] at heq
        injection heq with e1 e2
        injection e2 with e2a e2b
        subst e1
        subst e2a
        subst e2b
        have ha : isAlphaChar c1 = true ∧ isAlphaChar c2 = true := by
          simpa using hall
        have hC1 : (isAlphaChar c1 && isAlphaChar c2 && matchDotExt ('.' :: c :: r))
            = true := by
          simp [ha.1, ha.2, matchDotExt, hw]
        simp [hC1]

/-! ## Parsing and creation claims -/

/-- Claim C8: for a file whose constructed record has an unset element,
the filename heuristic decides the outcome: when the regex capture
succeeds the produced record's element is the captured leading characters,
when it fails the file is rejected with `ParsingError`; and the capture
succeeds exactly on filenames of the form one or two alphabetic characters,
a dot, and an extension beginning with a word character, yielding those
leading characters. -/
theorem parse_filename_fallback (ptype : PyType) (i : Nat) (fe : FileEntry)
    (h : fe.parseResult = .ok none) :
    (∀ el : List Char, elementFromChars fe.filename.toList = some el →
      parseOne ptype i fe =
        .ok { id := i, element := some (String.mk el), filename := fe.filename,
              ptype := ptype, is_stored := false }) ∧
    (elementFromChars fe.filename.toList = none →
      resultErrKind (parseOne ptype i fe) = some .parsingError) ∧
    (∀ cs el : List Char, elementFromChars cs = some el ↔
      ∃ c rest, cs = el ++ '.' :: c :: rest ∧ el.all isAlphaChar = true ∧
        (el.length = 1 ∨ el.length = 2) ∧ isWordChar c = true) := by
  refine ⟨?_, ?_, elementFromChars_some_iff⟩
  · intro el hel
    have hel' : elementFromChars fe.filename.data = some el := hel
    simp [parseOne, h, elementFromFilename, hel']
  · intro hel
    have hel' : elementFromChars fe.filename.data = none := hel
    simp [parseOne, h, elementFromFilename, hel', resultErrKind, PyError.kind]

/-- The copper file of property P3: constructor leaves the element unset. -/
def feCu : FileEntry :=
  { filename := "Cu.UPF", is_file := true, parseResult := .ok none }

/-- A file whose name fits no element pattern, element unset. -/
def feCus : FileEntry :=
  { filename := "Cus.UPF", is_file := true, parseResult := .ok none }

/-- Witness for C8: filename `Cu.UPF` yields element `Cu`; filename
`Cus.UPF` yields `ParsingError`. -/
theorem parse_filename_fallback_witness :
    parseOne .pseudoPotentialData 0 feCu =
      .ok { id := 0, element := some (String.mk ['C', 'u']),
            filename := feCu.filename, ptype := .pseudoPotentialData,
            is_stored := false } ∧
    resultErrKind (parseOne .pseudoPotentialData 0 feCus) = some .parsingError :=
  ⟨(parse_filename_fallback .pseudoPotentialData 0 feCu rfl).1 ['C', 'u'] (by decide),
    (parse_filename_fallback .pseudoPotentialData 0 feCus rfl).2.1 (by decide)⟩

/-- Claim C7: once the per-file loop has produced the record list, the
post-pass of `parse_pseudos_from_directory` fails with `ValueError` (the
spec's `InvalidInput`) on an empty list, and otherwise fails with
`ValueError` exactly when the record count differs from the count of
distinct element symbols — the cardinality comparison — returning the
records unchanged when the counts agree. -/
theorem parse_directory_post_pass (ptype : PyType) (path : String)
    (entries : List FileEntry) (ps : List PNode)
    (h : parseAll ptype path entries 0 = .ok ps) :
    (ps = [] → parse_pseudos_from_directory ptype (.dir path entries) =
      .error (.valueError ("no pseudo potentials were parsed from " ++ path))) ∧
    (ps ≠ [] →
      (resultErrKind (parse_pseudos_from_directory ptype (.dir path entries)) =
          some .valueError ↔
        ps.length ≠ ((ps.map PNode.element).dedup).length)) ∧
    (ps ≠ [] → ps.length = ((ps.map PNode.element).dedup).length →
      parse_pseudos_from_directory ptype (.dir path entries) = .ok ps) := by
  have hp : parse_pseudos_from_directory ptype (.dir path entries) =
      postCheck path ps := by
    simp [parse_pseudos_from_directory, h]
  rw [hp]
  refine ⟨?_, ?_, ?_⟩
  · rintro rfl
    simp [postCheck]
  · intro hne
    have hie : ps.isEmpty = false := by
      simpa [List.isEmpty_iff] using hne
    by_cases hl : ps.length = ((ps.map PNode.element).dedup).length
    · simp [postCheck, hie, hl, resultErrKind]
    · simp [postCheck, hie, hl, resultErrKind, PyError.kind]
  · intro hne hl
    have hie : ps.isEmpty = false := by
      simpa [List.isEmpty_iff] using hne
    simp [postCheck, hie, hl]

/-- The records parsed from a directory with two iron files. -/
def psDup : List PNode :=
  [{ id := 0, element := some "Fe", filename := "Fe.upf",
     ptype := .pseudoPotentialData, is_stored := false },
   { id := 1, element := some "Fe", filename := "Fe2.upf",
     ptype := .pseudoPotentialData, is_stored := false }]

/-- The records parsed from a directory with an iron and an oxygen file. -/
def psGood : List PNode :=
  [{ id := 0, element := some "Fe", filename := "Fe.upf",
     ptype := .pseudoPotentialData, is_stored := false },
   { id := 1, element := some "O", filename := "O.upf",
     ptype := .pseudoPotentialData, is_stored := false }]

/-- Directory entries producing `psDup`. -/
def entriesDup : List FileEntry :=
  [{ filename := "Fe.upf", is_file := true, parseResult := .ok none },
   { filename := "Fe2.upf", is_file := true, parseResult := .ok (some "Fe") }]

/-- Directory entries producing `psGood`. -/
def entriesGood : List FileEntry :=
  [{ filename := "Fe.upf", is_file := true, parseResult := .ok none },
   { filename := "O.upf", is_file := true, parseResult := .ok (some "O") }]

/-- Witness for C7: the empty directory fails, the duplicate-iron
directory fails with `ValueError`, and the iron-oxygen directory returns
its two records. -/
theorem parse_directory_post_pass_witness :
    parse_pseudos_from_directory .pseudoPotentialData (.dir "/empty" []) =
      .error (.valueError ("no pseudo potentials were parsed from " ++ "/empty")) ∧
    resultErrKind (parse_pseudos_from_directory .pseudoPotentialData
        (.dir "/dup" entriesDup)) = some .valueError ∧
    parse_pseudos_from_directory .pseudoPotentialData
        (.dir "/good" entriesGood) = .ok psGood :=
  ⟨(parse_directory_post_pass .pseudoPotentialData "/empty" [] [] rfl).1 rfl,
    ((parse_directory_post_pass .pseudoPotentialData "/dup" entriesDup psDup
      (by decide)).2.1 (by decide)).2 (by decide),
    (parse_directory_post_pass .pseudoPotentialData "/good" entriesGood psGood
      (by decide)).2.2 (by decide) (by decide)⟩

/-- Claim C9 is refuted on one point: the label-collision failure of
`create_from_folder` is raised as `ValueError`, the very same exception
class the operation uses for structural precondition violations such as a
`dirpath` that is not a directory — not a class distinct from it. -/
theorem create_from_folder_collision_class_not_distinct :
    resultErrKind (create_from_folder .pseudoPotentialData ["SSSP"]
        (.notDir "/nonexistent") "SSSP" "") =
      resultErrKind (create_from_folder .pseudoPotentialData []
        (.notDir "/nonexistent") "other" "") ∧
    resultErrKind (create_from_folder .pseudoPotentialData ["SSSP"]
        (.notDir "/nonexistent") "SSSP" "") = some .valueError :=
  ⟨rfl, rfl⟩

/-- Claim C9 as amended: for every label already carried by an existing
family, `create_from_folder` fails with `ValueError` carrying an
already-exists message, before the directory is even looked at, and no
family is produced or stored. -/
theorem create_from_folder_label_collision (ptype : PyType)
    (existingLabels : List String) (d : Dirpath) (label description : String)
    (h : existingLabels.contains label = true) :
    create_from_folder ptype existingLabels d label description =
      .error (.valueError
        ("the PseudoPotentialFamily " ++ label ++ " already exists")) := by
  unfold create_from_folder
  rw [if_pos h]

/-- Witness for C9 at the concrete label `SSSP`, with a directory argument
that would itself be rejected were it inspected. -/
theorem create_from_folder_label_collision_witness :
    create_from_folder .pseudoPotentialData ["SSSP"] (.notDir "/nonexistent")
        "SSSP" "a description" =
      .error (.valueError
        ("the PseudoPotentialFamily " ++ "SSSP" ++ " already exists")) :=
  create_from_folder_label_collision .pseudoPotentialData ["SSSP"]
    (.notDir "/nonexistent") "SSSP" "a description" (by decide)
